import Mathlib

/-!
Verification development for the stefuna AWS Step Functions activity server.

The Python sources are embedded shallowly:
* `src/stefuna/util.py` — `safe_cause`;
* `src/stefuna/server.py` — `activity_region` and the capacity-gated
  dispatcher loop `Server.run` / `Server._task_ended`;
* `src/stefuna/worker.py` — `Worker._run_task`, `Worker.send_task_success`,
  `Worker.send_task_failure`, `Worker.heartbeat` and the heartbeat thread
  loop `Worker._run_heartbeat_thread`.

Python strings are modelled as Lean `String` (sequences of characters,
`len` = `String.length`, slicing = `List.take`/`List.drop` on `.data`).
Wall-clock instants and durations are modelled as rationals.  External
collaborators (the boto3 Step Functions client, `json.loads`, the user
handler subclass) are modelled as oracle inputs: each RPC call records an
observable wire event and carries a flag saying whether the call raised,
`json.loads` is an `Except` oracle, and the user handler is a trace of the
direct report calls it makes followed by its outcome.
-/

namespace Stefuna

/-! ## util.py -/

/-- `SFN_LIMITS['CAUSE_SIZE']` from util.py. -/
def SFN_CAUSE_SIZE : Nat := 32768

/-- `ELLIPSIS` from util.py. -/
def ELLIPSIS : String := "..."

/-- util.py `safe_cause`: truncate an over-long cause to `CAUSE_SIZE`
characters, replacing the tail of the truncated prefix with `...`.
Python `cause[:n] + ELLIPSIS` is `List.take n` on the character list. -/
def safe_cause (cause : String) : String :=
  if cause.length > SFN_CAUSE_SIZE then
    String.mk (cause.data.take (SFN_CAUSE_SIZE - ELLIPSIS.length) ++ ELLIPSIS.data)
  else cause

/-! ## server.py: activity_region -/

/-- Python `str.split(sep)` for a one-character separator: keeps empty
fields, and splitting the empty string yields `[""]`. -/
def pySplit (sep : Char) : List Char → List (List Char)
  | [] => [[]]
  | c :: rest =>
    match pySplit sep rest with
    | [] => if c = sep then [[], []] else [[c]]
    | h :: t => if c = sep then [] :: h :: t else (c :: h) :: t

/-- server.py `activity_region`: the fourth colon-separated field of the
activity arn, `None` for a falsy arn or fewer than four fields. -/
def activity_region (activity_arn : String) : Option String :=
  if activity_arn ≠ "" then
    let parts := pySplit ':' activity_arn.data
    if 4 ≤ parts.length then (parts[3]?).map String.mk else none
  else none

/-! ## worker.py: the Worker runtime

`Worker._run_task` is embedded as a total function from the worker state,
the task token and an oracle environment (JSON parse outcome, user-handler
behaviour, RPC outcomes) to the final worker state and the returned pair.
The observable terminal RPCs are recorded in a `wire` trace, and every
assignment to `_task_result_status` made by the report helpers is recorded
in a `statusLog` trace, so that theorems can speak about "RPCs sent on the
wire" and "the first transition out of UNSET". -/

/-- One terminal RPC attempted on the wire: the arguments of a
`sf_client.send_task_success` or `sf_client.send_task_failure` call. -/
inductive WireCall
  | success (token : Option String) (output : String)
  | failure (token : Option String) (error : String) (cause : String)
deriving DecidableEq

/-- State of a `Worker` instance (worker.py): the current-token slot
(`task_token`, `task_token_time`), the tri-state `_task_result_status`
(`none` = UNSET, `some true` = success reported, `some false` = failure
reported), plus the two observation traces. -/
structure WorkerState where
  task_token : Option String
  task_token_time : Option ℚ
  task_result_status : Option Bool
  wire : List WireCall
  statusLog : List Bool
deriving DecidableEq

/-- A fresh worker state (token slot clear, no RPCs observed). -/
def initWorker : WorkerState :=
  { task_token := none, task_token_time := none, task_result_status := none,
    wire := [], statusLog := [] }

/-- worker.py `Worker._set_task_token`: store the token and, when it is
non-null, the current time; clearing the token clears the time. -/
def set_task_token (st : WorkerState) (token : Option String) (now : ℚ) : WorkerState :=
  { st with task_token := token,
            task_token_time := if token.isSome then some now else none }

/-- worker.py `Worker.send_task_success`: attempt the RPC with the current
token; on RPC success set `_task_result_status = True`, on an RPC exception
log and set it to `False`. `rpcOk` is the oracle for whether the boto call
raised. -/
def send_task_success (st : WorkerState) (task_result : String) (rpcOk : Bool) :
    WorkerState :=
  let st1 := { st with wire := st.wire ++ [WireCall.success st.task_token task_result] }
  { st1 with task_result_status := some rpcOk, statusLog := st1.statusLog ++ [rpcOk] }

/-- worker.py `Worker.send_task_failure`: attempt the RPC with the current
token and `safe_cause(cause)`; the `finally` sets `_task_result_status =
False` whether or not the RPC raised (so `rpcOk` does not affect state). -/
def send_task_failure (st : WorkerState) (error cause : String) (_rpcOk : Bool) :
    WorkerState :=
  let st1 := { st with
    wire := st.wire ++ [WireCall.failure st.task_token error (safe_cause cause)] }
  { st1 with task_result_status := some false, statusLog := st1.statusLog ++ [false] }

/-- A direct report call made by the user handler from inside `run_task`,
with the oracle outcome of its RPC. -/
inductive HandlerAction
  | callSuccess (output : String) (rpcOk : Bool)
  | callFailure (error : String) (cause : String) (rpcOk : Bool)
deriving DecidableEq

/-- How the user handler's `run_task` finishes: return a string (passed
verbatim), return a non-string non-None value (modelled by its
`json.dumps` encoding), return None, or raise an exception with the given
message. -/
inductive HandlerResult
  | retStr (s : String)
  | retJson (dumps : String)
  | retNone
  | raised (msg : String)
deriving DecidableEq

/-- Behaviour of one `run_task` invocation: the direct report calls it
makes, in order, followed by its outcome. -/
structure HandlerBehavior where
  actions : List HandlerAction
  result : HandlerResult
deriving DecidableEq

/-- Oracle environment for one `Worker._run_task` call: the outcome of
`json.loads` on the input (`Except.error` = the `ValueError` message), the
user handler's behaviour, the outcome of the terminal RPC the runtime
itself may send, and the wall-clock time. -/
structure TaskEnv where
  parse : Except String Unit
  handler : HandlerBehavior
  wrRpcOk : Bool
  now : ℚ

/-- Run the handler's direct report calls in order (each is a plain call
to `send_task_success` / `send_task_failure` on the worker). -/
def runHandlerActions : WorkerState → List HandlerAction → WorkerState
  | st, [] => st
  | st, HandlerAction.callSuccess out ok :: rest =>
      runHandlerActions (send_task_success st out ok) rest
  | st, HandlerAction.callFailure err cause ok :: rest =>
      runHandlerActions (send_task_failure st err cause ok) rest

/-- worker.py `Worker._run_task`.  Mirrors the source line by line:
set `_task_result_status = None`; set the token slot; `json.loads` the
input, re-raising a parse `ValueError` as
`ValueError('Error parsing task input json: ' + msg)`; call the user
handler; if the tri-state is still UNSET send the encoded success result;
any exception is caught and, if the tri-state is still UNSET, reported as
`send_task_failure('Task.Failure', 'Exception raised during task run: '
+ msg)`; the `finally` computes the status string (Python truthiness:
`'task_success'` only when the tri-state is `True`), clears the token slot
and returns `(task_token, status)`.  The function is total: every
exception path of the source is caught inside it. -/
def run_task_model (st0 : WorkerState) (task_token : String) (env : TaskEnv) :
    WorkerState × (String × String) :=
  let st := { st0 with task_result_status := none }
  let st := set_task_token st (some task_token) env.now
  let st :=
    match env.parse with
    | Except.error e =>
        -- `raise ValueError('Error parsing task input json: ...')`,
        -- caught by the outer `except Exception as e` branch
        let msg := "Error parsing task input json: " ++ e
        if st.task_result_status = none then
          send_task_failure st "Task.Failure"
            ("Exception raised during task run: " ++ msg) env.wrRpcOk
        else st
    | Except.ok _ =>
        let st := runHandlerActions st env.handler.actions
        match env.handler.result with
        | HandlerResult.raised msg =>
            if st.task_result_status = none then
              send_task_failure st "Task.Failure"
                ("Exception raised during task run: " ++ msg) env.wrRpcOk
            else st
        | HandlerResult.retStr s =>
            if st.task_result_status = none then
              send_task_success st s env.wrRpcOk
            else st
        | HandlerResult.retJson dumps =>
            if st.task_result_status = none then
              send_task_success st dumps env.wrRpcOk
            else st
        | HandlerResult.retNone =>
            if st.task_result_status = none then
              send_task_success st "\x7b\x7d" env.wrRpcOk
            else st
  let status := if st.task_result_status = some true then "task_success" else "task_failure"
  let st := set_task_token st none env.now
  (st, (task_token, status))

/-! ## worker.py: heartbeat -/

/-- Outcome of a `send_task_heartbeat` RPC: success, a `ClientError`
carrying a response error code, or any other exception. -/
inductive HbRpcOutcome
  | ok
  | clientError (code : String)
  | otherError
deriving DecidableEq

/-- The heartbeat error codes worker.py treats as terminal for a token. -/
def terminalHbCodes : List String := ["TaskDoesNotExist", "InvalidToken", "TaskTimedOut"]

/-- worker.py `Worker.heartbeat`: given the current token, the stored
`_heartbeat_fail_token` and the RPC oracle, return whether the heartbeat
RPC was attempted on the wire and the new `_heartbeat_fail_token`.
The RPC is attempted only when the token is non-null and differs from the
fail token; on success the fail token is cleared; on a `ClientError` with
a terminal code the fail token is set to the token; every other error is
logged and leaves the fail token unchanged. -/
def heartbeat_step (token failTok : Option String) (rpc : HbRpcOutcome) :
    Bool × Option String :=
  match token with
  | none => (false, failTok)
  | some t =>
      if failTok = some t then (false, failTok)
      else
        match rpc with
        | HbRpcOutcome.ok => (true, none)
        | HbRpcOutcome.clientError code =>
            if code ∈ terminalHbCodes then (true, some t) else (true, failTok)
        | HbRpcOutcome.otherError => (true, failTok)

/-- Iterate `Worker.heartbeat` for a fixed current token over a sequence
of RPC oracle outcomes; returns the list of "RPC attempted" flags and the
final fail token. -/
def heartbeatIter (token failTok : Option String) :
    List HbRpcOutcome → List Bool × Option String
  | [] => ([], failTok)
  | r :: rs =>
      let p := heartbeat_step token failTok r
      let q := heartbeatIter token p.2 rs
      (p.1 :: q.1, q.2)

/-- One wake-up of worker.py `Worker._run_heartbeat_thread`'s loop body:
from the beat period, the token-slot snapshot (the stored
`task_token_time` when a token is present) and the current time, return
whether `heartbeat` is invoked and how long the loop then sleeps.
When no token is set the loop sleeps `beat`; when the token's age `delta`
satisfies `delta + 0.5 < beat` the loop sleeps `beat - delta` without
beating; otherwise it calls `heartbeat(token)` and sleeps `beat`. -/
def hbStep (beat : ℚ) (slot : Option ℚ) (now : ℚ) : Bool × ℚ :=
  match slot with
  | none => (false, beat)
  | some tokenTime =>
      let delta := now - tokenTime
      if delta + 1/2 < beat then (false, beat - delta)
      else (true, beat)

/-- A single-task timing scenario for the heartbeat thread: the task holds
the token slot exactly during `[start, start + dur)` with
`task_token_time = start`, and heartbeat RPCs never fail (so `heartbeat`
always sends when invoked). -/
structure HBScenario where
  beat : ℚ
  start : ℚ
  dur : ℚ
deriving DecidableEq

/-- The token-slot snapshot the heartbeat thread reads at time `now` in a
single-task scenario. -/
def tokenAt (sc : HBScenario) (now : ℚ) : Option ℚ :=
  if sc.start ≤ now ∧ now < sc.start + sc.dur then some sc.start else none

/-- Timeline of the heartbeat thread in a single-task scenario: starting
awake at time `t0` with `fuel` wake-ups left, return the times at which a
heartbeat is sent. -/
def hbTrace (sc : HBScenario) : Nat → ℚ → List ℚ
  | 0, _ => []
  | fuel + 1, now =>
      let p := hbStep sc.beat (tokenAt sc now) now
      (if p.1 then [now] else []) ++ hbTrace sc fuel (now + p.2)

/-! ## server.py: the capacity-gated dispatcher -/

/-- Observable state of `Server.run`'s dispatch machinery: available
semaphore permits, tasks currently held by the pool, and the loop-local
`worker_ready` flag. -/
structure DispatcherState where
  permits : Nat
  inFlight : Nat
  workerReady : Bool
deriving DecidableEq

/-- Atomic transitions of the dispatcher machinery in server.py:
`acquire` is `self.workers.acquire()` at the top of the loop (only when
`worker_ready` is false, blocking until a permit is available);
`pollEmpty` is a `get_activity_task` return without a usable token;
`submit` is `self.run_task(...)` handing the task to the pool followed by
`worker_ready = False`; `taskDone` is the pool completion callback
`Server._task_ended`, which releases exactly one permit. -/
inductive DStep : DispatcherState → DispatcherState → Prop
  | acquire (s : DispatcherState) (hready : s.workerReady = false) (hp : 0 < s.permits) :
      DStep s ⟨s.permits - 1, s.inFlight, true⟩
  | pollEmpty (s : DispatcherState) (hready : s.workerReady = true) :
      DStep s s
  | submit (s : DispatcherState) (hready : s.workerReady = true) :
      DStep s ⟨s.permits, s.inFlight + 1, false⟩
  | taskDone (s : DispatcherState) (h : 0 < s.inFlight) :
      DStep s ⟨s.permits + 1, s.inFlight - 1, s.workerReady⟩

/-- States reachable by the dispatcher of a server created with `P` worker
processes: `Semaphore(processes)` starts with `P` permits, no task in
flight, `worker_ready = False`. -/
inductive DReach (P : Nat) : DispatcherState → Prop
  | init : DReach P ⟨P, 0, false⟩
  | step {s s' : DispatcherState} : DReach P s → DStep s s' → DReach P s'

/-- The permit ledger of the dispatcher: available permits plus in-flight
tasks plus the permit parked by `worker_ready` account for all `P`. -/
def dispatchInv (P : Nat) (s : DispatcherState) : Prop :=
  s.permits + s.inFlight + (if s.workerReady then 1 else 0) = P

instance (P : Nat) (s : DispatcherState) : Decidable (dispatchInv P s) := by
  unfold dispatchInv; infer_instance

/-- Outcome of one `get_activity_task` long poll: the call raises, or it
returns a response whose `taskToken` may be absent or empty. -/
inductive PollOutcome
  | raises (e : String)
  | response (taskToken : Option String)
deriving DecidableEq

/-- The body of `Server.run`'s loop after the acquire step (server.py
lines 114-122), as written in the source: `get_activity_task` is called
with no surrounding try/except, so a raising poll propagates out of the
loop (`Except.error`); a response with a non-null non-empty token is
submitted to the pool and flips `worker_ready`; otherwise the state is
unchanged and the loop continues. -/
def pollAndDispatch (s : DispatcherState) (poll : PollOutcome) :
    Except String DispatcherState :=
  match poll with
  | PollOutcome.raises e => Except.error e
  | PollOutcome.response tok =>
      match tok with
      | some t =>
          if t.length > 0 then
            Except.ok ⟨s.permits, s.inFlight + 1, false⟩
          else Except.ok s
      | none => Except.ok s

/-- A handler behaviour that directly calls `send_task_success` and then
`send_task_failure`, both RPCs succeeding, then returns `None`. -/
def doubleReportEnv : TaskEnv :=
  { parse := Except.ok (),
    handler := ⟨[HandlerAction.callSuccess "o" true,
                 HandlerAction.callFailure "E" "c" true],
                HandlerResult.retNone⟩,
    wrRpcOk := true, now := 0 }

/-! ### Helper lemmas about safe_cause -/

theorem safe_cause_of_le (c : String) (h : c.length ≤ SFN_CAUSE_SIZE) :
    safe_cause c = c := by
  unfold safe_cause
  simp [Nat.not_lt.mpr h]

theorem safe_cause_eq_of_gt (c : String) (h : c.length > SFN_CAUSE_SIZE) :
    safe_cause c =
      String.mk (c.data.take (SFN_CAUSE_SIZE - ELLIPSIS.length) ++ ELLIPSIS.data) := by
  unfold safe_cause
  simp only [h, if_pos]

theorem safe_cause_length_of_gt (c : String) (h : c.length > SFN_CAUSE_SIZE) :
    (safe_cause c).length = SFN_CAUSE_SIZE := by
  rw [safe_cause_eq_of_gt c h]
  have hd : c.data.length = c.length := rfl
  show (c.data.take (SFN_CAUSE_SIZE - ELLIPSIS.length) ++ ELLIPSIS.data).length
      = SFN_CAUSE_SIZE
  rw [List.length_append, List.length_take, hd]
  have he : ELLIPSIS.data.length = 3 := rfl
  have hel : ELLIPSIS.length = 3 := rfl
  have hc : SFN_CAUSE_SIZE = 32768 := rfl
  rw [he, hel, hc]
  rw [hc] at h
  omega

/-! ## Claim theorems -/

/-- C6: for every cause string longer than 32768 characters, the cause
actually passed to the failure report (`safe_cause` applied to it) has
length exactly 32768, ends with the three characters `...`, and its first
32765 characters are the first 32765 characters of the original cause. -/
theorem safe_cause_truncates (c : String) (h : c.length > 32768) :
    (safe_cause c).length = 32768 ∧
    (safe_cause c).data.drop 32765 = ['.', '.', '.'] ∧
    (safe_cause c).data.take 32765 = c.data.take 32765 := by
  have h' : c.length > SFN_CAUSE_SIZE := h
  have hdata : (safe_cause c).data = c.data.take 32765 ++ ['.', '.', '.'] := by
    rw [safe_cause_eq_of_gt c h']
    rfl
  have hl1 : (c.data.take 32765).length = 32765 := by
    rw [List.length_take]
    have hd : c.data.length = c.length := rfl
    omega
  refine ⟨safe_cause_length_of_gt c h', ?_, ?_⟩
  · rw [hdata]
    nth_rewrite 1 [← hl1]
    rw [List.drop_left]
  · rw [hdata]
    nth_rewrite 1 [← hl1]
    rw [List.take_left]

/-- Witness for C6 at a concrete cause of length 32769. -/
theorem safe_cause_truncates_witness :
    (String.mk (List.replicate 32769 'a')).length > 32768 ∧
    ((safe_cause (String.mk (List.replicate 32769 'a'))).length = 32768 ∧
     (safe_cause (String.mk (List.replicate 32769 'a'))).data.drop 32765 = ['.', '.', '.'] ∧
     (safe_cause (String.mk (List.replicate 32769 'a'))).data.take 32765
        = (String.mk (List.replicate 32769 'a')).data.take 32765) := by
  have hlen : (String.mk (List.replicate 32769 'a')).length > 32768 := by
    show (List.replicate 32769 'a').length > 32768
    rw [List.length_replicate]
    omega
  exact ⟨hlen, safe_cause_truncates _ hlen⟩

/-- C10: `safe_cause` is idempotent, and it is the identity on every
string of length at most 32768. -/
theorem safe_cause_idempotent (c : String) :
    safe_cause (safe_cause c) = safe_cause c ∧
    (c.length ≤ 32768 → safe_cause c = c) := by
  constructor
  · by_cases h : c.length > SFN_CAUSE_SIZE
    · exact safe_cause_of_le _ (le_of_eq (safe_cause_length_of_gt c h))
    · have hle := Nat.not_lt.mp h
      rw [safe_cause_of_le c hle]
      exact safe_cause_of_le c hle
  · exact fun hle => safe_cause_of_le c hle

/-- Witness for C10 at the concrete cause `"abc"`. -/
theorem safe_cause_idempotent_witness :
    safe_cause (safe_cause "abc") = safe_cause "abc" ∧ safe_cause "abc" = "abc" :=
  ⟨(safe_cause_idempotent "abc").1, (safe_cause_idempotent "abc").2 (by decide)⟩

/-- C9: `activity_region` returns the fourth colon-separated field of the
arn whenever there are at least four fields, and `none` for the empty
string and for every arn with fewer than four fields. -/
theorem activity_region_fields :
    activity_region "" = none ∧
    (∀ arn : String, 4 ≤ (pySplit ':' arn.data).length →
        activity_region arn = ((pySplit ':' arn.data)[3]?).map String.mk) ∧
    (∀ arn : String, (pySplit ':' arn.data).length < 4 → activity_region arn = none) := by
  refine ⟨rfl, ?_, ?_⟩
  · intro arn h
    by_cases harn : arn = ""
    · subst harn
      have h1 : (pySplit ':' ("" : String).data).length = 1 := rfl
      omega
    · simp [activity_region, harn, h]
  · intro arn h
    by_cases harn : arn = ""
    · subst harn; rfl
    · simp [activity_region, harn, Nat.not_le.mpr h]

/-- Witness for C9: the documented example arn yields `us-east-2`, and a
short arn yields `none`. -/
theorem activity_region_fields_witness :
    4 ≤ (pySplit ':' ("arn:aws:states:us-east-2:123:stateMachine:x" : String).data).length ∧
    activity_region "arn:aws:states:us-east-2:123:stateMachine:x" = some "us-east-2" ∧
    (pySplit ':' ("arn:aws" : String).data).length < 4 ∧
    activity_region "arn:aws" = none := by
  refine ⟨by decide, ?_, by decide, activity_region_fields.2.2 "arn:aws" (by decide)⟩
  rw [activity_region_fields.2.1 "arn:aws:states:us-east-2:123:stateMachine:x" (by decide)]
  decide

/-- C2: for every token, every parse outcome, every handler behaviour
(including raising) and every RPC outcome, `Worker._run_task` reaches its
finalizer: it clears the current-token slot (both the token and its
timestamp become null) and returns the pair of the token it was called
with and a status that is either `task_success` or `task_failure`.  The
embedding `run_task_model` is a total function precisely because every
exception path of the source is caught before the `finally` block runs. -/
theorem run_task_total (st0 : WorkerState) (token : String) (env : TaskEnv) :
    (run_task_model st0 token env).1.task_token = none ∧
    (run_task_model st0 token env).1.task_token_time = none ∧
    (run_task_model st0 token env).2.1 = token ∧
    ((run_task_model st0 token env).2.2 = "task_success" ∨
      (run_task_model st0 token env).2.2 = "task_failure") := by
  rcases env with ⟨parse, ⟨actions, result⟩, wrOk, now⟩
  cases parse <;> cases result <;>
    simp only [run_task_model, set_task_token] <;>
    split_ifs <;>
    simp_all

/-- C1 counterexample: a user handler that directly calls
`send_task_success` and then `send_task_failure` (both RPCs succeeding)
puts two terminal RPCs on the wire in a single `_run_task` call, and the
tri-state moves from success-reported back to failure-reported, so the
final status does not equal the first transition out of UNSET. -/
theorem run_task_double_report :
    (run_task_model initWorker "t" doubleReportEnv).1.wire.length = 2 ∧
    ¬ ((run_task_model initWorker "t" doubleReportEnv).1.wire.length ≤ 1) ∧
    (run_task_model initWorker "t" doubleReportEnv).1.statusLog = [true, false] ∧
    (run_task_model initWorker "t" doubleReportEnv).2.2 = "task_failure" := by
  decide

/-- C1 (amended): when the user handler makes at most one direct report
call, at most one terminal RPC is sent on the wire for the whole
`_run_task` call, and the returned status equals the first (and only)
transition of the tri-state out of UNSET: `task_success` exactly when that
transition recorded a successful `send_task_success`. -/
theorem run_task_at_most_one_report (st0 : WorkerState) (token : String) (env : TaskEnv)
    (hw : st0.wire = []) (hl : st0.statusLog = [])
    (hact : env.handler.actions.length ≤ 1) :
    (run_task_model st0 token env).1.wire.length ≤ 1 ∧
    ((run_task_model st0 token env).2.2 = "task_success" ↔
      (run_task_model st0 token env).1.statusLog.head? = some true) := by
  rcases env with ⟨parse, ⟨actions, result⟩, wrOk, now⟩
  match actions, hact with
  | [], _ =>
    cases parse <;> cases result <;> cases wrOk <;>
      simp [run_task_model, runHandlerActions, send_task_success, send_task_failure,
        set_task_token, hw, hl]
  | [a], _ =>
    cases a <;> cases parse <;> cases result <;> cases wrOk <;>
      rename_i ok _ <;> cases ok <;>
      simp [run_task_model, runHandlerActions, send_task_success, send_task_failure,
        set_task_token, hw, hl]
  | _ :: _ :: _, hact => simp at hact

/-- Witness for C1 (amended): a handler that returns a string with all
RPCs succeeding sends exactly one terminal RPC whose transition matches
the returned status. -/
theorem run_task_at_most_one_report_witness :
    initWorker.wire = [] ∧ initWorker.statusLog = [] ∧
    (({ parse := Except.ok (), handler := ⟨[], HandlerResult.retStr "out"⟩,
        wrRpcOk := true, now := 0 } : TaskEnv).handler.actions.length ≤ 1) ∧
    ((run_task_model initWorker "t"
        { parse := Except.ok (), handler := ⟨[], HandlerResult.retStr "out"⟩,
          wrRpcOk := true, now := 0 }).1.wire.length ≤ 1 ∧
     ((run_task_model initWorker "t"
        { parse := Except.ok (), handler := ⟨[], HandlerResult.retStr "out"⟩,
          wrRpcOk := true, now := 0 }).2.2 = "task_success" ↔
      (run_task_model initWorker "t"
        { parse := Except.ok (), handler := ⟨[], HandlerResult.retStr "out"⟩,
          wrRpcOk := true, now := 0 }).1.statusLog.head? = some true)) :=
  ⟨rfl, rfl, by decide,
   run_task_at_most_one_report initWorker "t" _ rfl rfl (by decide)⟩

/-- C3 counterexample: on invalid JSON input the parse `ValueError` is
re-raised and then caught by the generic exception branch, so the
reported cause is `"Exception raised during task run: Error parsing task
input json: boom"`: it is not equal to `"Error parsing task input json:
boom"` and does not start with `"Error"` (its first five characters are
`"Excep"`). -/
theorem run_task_parse_failure_cause :
    (run_task_model initWorker "AT-0"
        { parse := Except.error "boom", handler := ⟨[], HandlerResult.retNone⟩,
          wrRpcOk := true, now := 0 }).1.wire
      = [WireCall.failure (some "AT-0") "Task.Failure"
          "Exception raised during task run: Error parsing task input json: boom"] ∧
    ("Exception raised during task run: Error parsing task input json: boom" : String)
      ≠ "Error parsing task input json: boom" ∧
    ("Exception raised during task run: Error parsing task input json: boom" : String).data.take 5
      ≠ ("Error parsing task input json: boom" : String).data.take 5 := by
  decide

/-- C3 (amended): if the task input is not valid JSON, the user handler is
never invoked (the run is independent of the handler behaviour), exactly
one `report_failure` is sent, with error code `Task.Failure` and cause
`"Exception raised during task run: Error parsing task input json: "`
followed by the parse error message (so the cause contains the parse
prefix but starts with the exception-run prefix), and `_run_task` returns
`(token, "task_failure")`. -/
theorem run_task_parse_failure (st0 : WorkerState) (token e : String) (env : TaskEnv)
    (hp : env.parse = Except.error e) (hw : st0.wire = []) :
    (run_task_model st0 token env).1.wire
      = [WireCall.failure (some token) "Task.Failure"
          (safe_cause ("Exception raised during task run: Error parsing task input json: "
            ++ e))] ∧
    (run_task_model st0 token env).2 = (token, "task_failure") ∧
    (∀ h' : HandlerBehavior,
        run_task_model st0 token { env with handler := h' }
          = run_task_model st0 token env) := by
  rcases env with ⟨parse, hb, wrOk, now⟩
  cases hp
  have hcat : ("Exception raised during task run: "
        ++ ("Error parsing task input json: " ++ e) : String)
      = "Exception raised during task run: Error parsing task input json: " ++ e := by
    rw [← String.append_assoc]
    rfl
  simp [run_task_model, send_task_failure, set_task_token, hw, hcat]

/-- Witness for C3 (amended) at a concrete invalid-JSON environment. -/
theorem run_task_parse_failure_witness :
    (({ parse := Except.error "bad", handler := ⟨[], HandlerResult.retNone⟩,
        wrRpcOk := true, now := 0 } : TaskEnv).parse = Except.error "bad") ∧
    initWorker.wire = [] ∧
    ((run_task_model initWorker "tok"
        { parse := Except.error "bad", handler := ⟨[], HandlerResult.retNone⟩,
          wrRpcOk := true, now := 0 }).1.wire
      = [WireCall.failure (some "tok") "Task.Failure"
          (safe_cause ("Exception raised during task run: Error parsing task input json: "
            ++ "bad"))] ∧
     (run_task_model initWorker "tok"
        { parse := Except.error "bad", handler := ⟨[], HandlerResult.retNone⟩,
          wrRpcOk := true, now := 0 }).2 = ("tok", "task_failure") ∧
     (∀ h' : HandlerBehavior,
        run_task_model initWorker "tok"
          ({ parse := Except.error "bad", handler := h', wrRpcOk := true, now := 0 } : TaskEnv)
          = run_task_model initWorker "tok"
              { parse := Except.error "bad", handler := ⟨[], HandlerResult.retNone⟩,
                wrRpcOk := true, now := 0 })) :=
  ⟨rfl, rfl, run_task_parse_failure initWorker "tok" "bad" _ rfl rfl⟩

/-- C4 counterexample: with `P = 1` the state reached just after the
dispatcher acquires its permit (and before any task is submitted) is
reachable, and there the in-flight count (0) differs from `P` minus the
available permits (1): the permit is parked by `worker_ready`, not held by
the pool. -/
theorem dispatcher_parked_permit :
    DReach 1 ⟨0, 0, true⟩ ∧
    ¬ ((⟨0, 0, true⟩ : DispatcherState).inFlight
        = 1 - (⟨0, 0, true⟩ : DispatcherState).permits) :=
  ⟨DReach.step DReach.init (DStep.acquire ⟨1, 0, false⟩ rfl (by decide)), by decide⟩

/-- Every dispatcher transition preserves the permit ledger; in
particular the completion callback (`taskDone`) releases exactly one
permit for the one in-flight task it retires. -/
theorem dstep_preserves_inv {s s' : DispatcherState} (h : DStep s s') (P : Nat)
    (hinv : dispatchInv P s) : dispatchInv P s' := by
  unfold dispatchInv at hinv ⊢
  cases h with
  | acquire hready hp =>
      rw [hready] at hinv
      simp at hinv ⊢
      omega
  | pollEmpty hready => exact hinv
  | submit hready =>
      rw [hready] at hinv
      simp at hinv ⊢
      omega
  | taskDone hif =>
      cases hwr : s.workerReady <;> rw [hwr] at hinv <;> simp at hinv ⊢ <;> omega

/-- C4 (amended): at every reachable state of the dispatcher of a server
with `P` worker processes, available permits plus in-flight tasks plus the
permit parked by `worker_ready` equal `P` (the `taskDone` completion
callback releases exactly the one permit its task consumed); hence at most
`P` tasks are in flight, and whenever `worker_ready` is false the
in-flight count equals `P` minus the available permits. -/
theorem dispatcher_capacity (P : Nat) (s : DispatcherState) (hr : DReach P s) :
    dispatchInv P s ∧ s.inFlight ≤ P ∧
    (s.workerReady = false → s.inFlight = P - s.permits) := by
  have hinv : dispatchInv P s := by
    induction hr with
    | init => simp [dispatchInv]
    | step hr hstep ih => exact dstep_preserves_inv hstep P ih
  refine ⟨hinv, ?_, ?_⟩
  · unfold dispatchInv at hinv
    cases hwr : s.workerReady <;> rw [hwr] at hinv <;> simp at hinv <;> omega
  · intro hwr
    unfold dispatchInv at hinv
    rw [hwr] at hinv
    simp at hinv
    omega

/-- Witness for C4 (amended) at the initial state of a one-process
server. -/
theorem dispatcher_capacity_witness :
    DReach 1 ⟨1, 0, false⟩ ∧
    (dispatchInv 1 ⟨1, 0, false⟩ ∧
     (⟨1, 0, false⟩ : DispatcherState).inFlight ≤ 1 ∧
     ((⟨1, 0, false⟩ : DispatcherState).workerReady = false →
       (⟨1, 0, false⟩ : DispatcherState).inFlight
         = 1 - (⟨1, 0, false⟩ : DispatcherState).permits)) :=
  ⟨DReach.init, dispatcher_capacity 1 ⟨1, 0, false⟩ DReach.init⟩

/-- C5 counterexample: a raising `get_activity_task` makes the loop body
evaluate to an error — the exception escapes `Server.run` instead of being
logged and swallowed. -/
theorem poll_failure_escapes :
    pollAndDispatch ⟨0, 0, true⟩ (PollOutcome.raises "boom") = Except.error "boom" ∧
    pollAndDispatch ⟨0, 0, true⟩ (PollOutcome.raises "boom")
      ≠ Except.ok ⟨0, 0, true⟩ := by
  refine ⟨rfl, ?_⟩
  simp [pollAndDispatch]

/-- C5 (amended): `Server.run` wraps `get_activity_task` in no exception
handler, so a raising poll propagates out of the loop body as an error in
every dispatcher state — the loop neither continues nor touches the held
permit; a poll that returns normally always yields a continuing state. -/
theorem poll_failure_propagates (s : DispatcherState) (e : String) :
    pollAndDispatch s (PollOutcome.raises e) = Except.error e ∧
    ∀ tok : Option String, ∃ s' : DispatcherState,
      pollAndDispatch s (PollOutcome.response tok) = Except.ok s' := by
  refine ⟨rfl, ?_⟩
  intro tok
  cases tok with
  | none => exact ⟨s, rfl⟩
  | some t =>
      by_cases h : t.length > 0
      · exact ⟨⟨s.permits, s.inFlight + 1, false⟩, by simp [pollAndDispatch, h]⟩
      · exact ⟨s, by simp [pollAndDispatch, h]⟩

/-- C8: a terminal-class heartbeat failure (`TaskDoesNotExist`,
`InvalidToken` or `TaskTimedOut`) records the token as the fail token;
thereafter every `heartbeat` call for that same current token skips the
RPC and keeps the fail token, whatever the RPC oracle would answer; and a
successful heartbeat clears the fail token. -/
theorem heartbeat_suppression :
    (∀ (t : String) (failTok : Option String) (code : String),
        failTok ≠ some t → code ∈ terminalHbCodes →
        heartbeat_step (some t) failTok (HbRpcOutcome.clientError code)
          = (true, some t)) ∧
    (∀ (t : String) (rs : List HbRpcOutcome),
        heartbeatIter (some t) (some t) rs
          = (List.replicate rs.length false, some t)) ∧
    (∀ (t : String) (failTok : Option String),
        failTok ≠ some t →
        heartbeat_step (some t) failTok HbRpcOutcome.ok = (true, none)) := by
  refine ⟨?_, ?_, ?_⟩
  · intro t failTok code hne hcode
    simp [heartbeat_step, hne, hcode]
  · intro t rs
    induction rs with
    | nil => simp [heartbeatIter]
    | cons r rs ih => simp [heartbeatIter, heartbeat_step, ih, List.replicate_succ]
  · intro t failTok hne
    simp [heartbeat_step, hne]

/-- Witness for C8 at a concrete token and RPC outcomes. -/
theorem heartbeat_suppression_witness :
    ((none : Option String) ≠ some "tok") ∧
    ("TaskTimedOut" ∈ terminalHbCodes) ∧
    heartbeat_step (some "tok") none (HbRpcOutcome.clientError "TaskTimedOut")
      = (true, some "tok") ∧
    heartbeatIter (some "tok") (some "tok") [HbRpcOutcome.ok, HbRpcOutcome.otherError]
      = ([false, false], some "tok") ∧
    heartbeat_step (some "tok") none HbRpcOutcome.ok = (true, none) := by
  refine ⟨by decide, by decide,
    heartbeat_suppression.1 "tok" none "TaskTimedOut" (by decide) (by decide),
    ?_,
    heartbeat_suppression.2.2 "tok" none (by decide)⟩
  have h := heartbeat_suppression.2.1 "tok" [HbRpcOutcome.ok, HbRpcOutcome.otherError]
  simpa using h

/-- C7 counterexample: with `H = 2` the heartbeat thread woken at time 0
(no task yet) sleeps `H` and wakes at time 2; a task started at time 0.1
that runs for 1.95 seconds (strictly less than `H`) is still running
there, its age 1.9 fails `1.9 + 0.5 < 2`, so a heartbeat is sent at time
2: a task completing in under `H` seconds produced a heartbeat. -/
theorem heartbeat_under_beat :
    ((⟨2, 1/10, 39/20⟩ : HBScenario).dur < (⟨2, 1/10, 39/20⟩ : HBScenario).beat) ∧
    hbTrace ⟨2, 1/10, 39/20⟩ 2 0 = [2] := by
  constructor
  · norm_num
  · norm_num [hbTrace, hbStep, tokenAt]

/-- C7 (amended): with heartbeats enabled, a heartbeat-loop iteration that
reads a non-null token whose age `delta` satisfies `delta + 0.5 < H` sends
no heartbeat and sleeps `H - delta`; otherwise it attempts exactly one
heartbeat and then sleeps `H`.  Consequently, in a single-task timeline,
every heartbeat for the task is sent no earlier than `H - 0.5` seconds
after its start, and a task that completes in under `H - 0.5` seconds
produces zero heartbeats. -/
theorem heartbeat_anchoring :
    (∀ (beat tokenTime now : ℚ), now - tokenTime + 1/2 < beat →
        hbStep beat (some tokenTime) now = (false, beat - (now - tokenTime))) ∧
    (∀ (beat tokenTime now : ℚ), ¬ (now - tokenTime + 1/2 < beat) →
        hbStep beat (some tokenTime) now = (true, beat)) ∧
    (∀ (sc : HBScenario) (n : Nat) (t0 t : ℚ), t ∈ hbTrace sc n t0 →
        sc.start + sc.beat - 1/2 ≤ t) ∧
    (∀ (sc : HBScenario) (n : Nat) (t0 : ℚ), sc.dur < sc.beat - 1/2 →
        hbTrace sc n t0 = []) := by
  refine ⟨?_, ?_, ?_, ?_⟩
  · intro beat tokenTime now h
    simp only [hbStep]
    rw [if_pos h]
  · intro beat tokenTime now h
    simp only [hbStep]
    rw [if_neg h]
  · intro sc n
    induction n with
    | zero => intro t0 t ht; simp [hbTrace] at ht
    | succ n ih =>
        intro t0 t ht
        simp only [hbTrace] at ht
        rcases List.mem_append.mp ht with h1 | h2
        · by_cases hin : sc.start ≤ t0 ∧ t0 < sc.start + sc.dur
          · have htok : tokenAt sc t0 = some sc.start := by
              unfold tokenAt
              rw [if_pos hin]
            rw [htok] at h1
            by_cases hC : (hbStep sc.beat (some sc.start) t0).1 = true
            · rw [if_pos hC] at h1
              simp at h1
              subst h1
              simp only [hbStep] at hC
              split_ifs at hC with hd
              linarith [not_lt.mp hd]
            · rw [if_neg hC] at h1
              simp at h1
          · have htok : tokenAt sc t0 = none := by
              unfold tokenAt
              rw [if_neg hin]
            rw [htok] at h1
            simp [hbStep] at h1
        · exact ih _ t h2
  · intro sc n
    induction n with
    | zero => intro t0 _; simp [hbTrace]
    | succ n ih =>
        intro t0 hdur
        simp only [hbTrace]
        by_cases hin : sc.start ≤ t0 ∧ t0 < sc.start + sc.dur
        · have htok : tokenAt sc t0 = some sc.start := by
            unfold tokenAt
            rw [if_pos hin]
          have hd : t0 - sc.start + 1/2 < sc.beat := by
            rcases hin with ⟨hs1, hs2⟩
            linarith
          have hstep : hbStep sc.beat (some sc.start) t0
              = (false, sc.beat - (t0 - sc.start)) := by
            simp only [hbStep]
            rw [if_pos hd]
          rw [htok, hstep]
          simp
          exact ih _ hdur
        · have htok : tokenAt sc t0 = none := by
            unfold tokenAt
            rw [if_neg hin]
          have hstep : hbStep sc.beat none t0 = (false, sc.beat) := rfl
          rw [htok, hstep]
          simp
          exact ih _ hdur

/-- Witness for C7 (amended) at concrete times: a young token is skipped,
an old one is beaten, a heartbeat in a concrete timeline respects the
anchor, and a short task yields an empty heartbeat timeline. -/
theorem heartbeat_anchoring_witness :
    ((0 : ℚ) - 0 + 1/2 < 2) ∧ hbStep 2 (some 0) 0 = (false, 2 - (0 - 0)) ∧
    (¬ ((2 : ℚ) - 0 + 1/2 < 2)) ∧ hbStep 2 (some 0) 2 = (true, 2) ∧
    ((2 : ℚ) ∈ hbTrace ⟨2, 0, 5⟩ 2 0) ∧
    ((⟨2, 0, 5⟩ : HBScenario).start + (⟨2, 0, 5⟩ : HBScenario).beat - 1/2 ≤ (2 : ℚ)) ∧
    ((⟨2, 0, 1⟩ : HBScenario).dur < (⟨2, 0, 1⟩ : HBScenario).beat - 1/2) ∧
    hbTrace ⟨2, 0, 1⟩ 3 0 = [] := by
  have hmem : (2 : ℚ) ∈ hbTrace ⟨2, 0, 5⟩ 2 0 := by
    norm_num [hbTrace, hbStep, tokenAt]
  refine ⟨by norm_num, heartbeat_anchoring.1 2 0 0 (by norm_num),
    by norm_num, heartbeat_anchoring.2.1 2 0 2 (by norm_num),
    hmem,
    heartbeat_anchoring.2.2.1 ⟨2, 0, 5⟩ 2 0 2 hmem,
    by norm_num,
    heartbeat_anchoring.2.2.2 ⟨2, 0, 1⟩ 3 0 (by norm_num)⟩

end Stefuna
